import Mathlib

set_option maxRecDepth 10000

/-!
Verification of the ssm-term-rs protocol engine against its specification.

The definitions below are a shallow embedding of the Rust sources:
bytes are `Nat` values below 256, byte buffers are `List Nat`, Rust
`String` values are lists of Unicode code points, `u32`/`u64` become
`Nat` with explicit big-endian byte conversion, `i64` becomes `Int`
with two's-complement conversion, and fallible Rust functions return
`Option`.  A Rust operation that can panic (an out-of-bounds slice, an
explicit `panic!` arm) is modelled by a dedicated `panicked` result
constructor, so that totality claims can be settled.
-/

/-! ## Byte-level utilities (byteorder crate usage in the sources) -/

/-- The sub-slice `l[off .. off+len]` of a byte buffer. -/
def sliceAt (l : List Nat) (off len : Nat) : List Nat := (l.drop off).take len

/-- Big-endian read of `len` bytes at `off`, as in `BigEndian::read_u32`
and `BigEndian::read_u64` (the caller checks bounds first, as the Rust
code does via `check_valid`). -/
def readBE (l : List Nat) (off len : Nat) : Nat :=
  (sliceAt l off len).foldl (fun acc b => acc * 256 + b) 0

/-- `u32::to_be_bytes`. -/
def be32 (n : Nat) : List Nat :=
  [n / 2 ^ 24 % 256, n / 2 ^ 16 % 256, n / 2 ^ 8 % 256, n % 256]

/-- `u64::to_be_bytes`. -/
def be64 (n : Nat) : List Nat :=
  [n / 2 ^ 56 % 256, n / 2 ^ 48 % 256, n / 2 ^ 40 % 256, n / 2 ^ 32 % 256,
   n / 2 ^ 24 % 256, n / 2 ^ 16 % 256, n / 2 ^ 8 % 256, n % 256]

/-- The `u64` bit pattern of an `i64` (two's complement), used when the
Rust code serializes `i64::to_be_bytes`. -/
def intToU64 (i : Int) : Nat := (i % (2 : Int) ^ 64).toNat

/-- The `i64` denoted by a `u64` bit pattern, used by `BigEndian::read_i64`. -/
def toI64 (n : Nat) : Int :=
  if n < 2 ^ 63 then (n : Int) else (n : Int) - 2 ^ 64

/-! ## UTF-8 (the `std::str` machinery the sources rely on)

`leadInfo` encodes the standard UTF-8 acceptance automaton used by
`std::str::from_utf8`: for a lead byte it yields the initial
accumulator value together with the admissible ranges of the
continuation bytes (the ranges exclude overlong encodings, surrogate
code points and values above U+10FFFF). -/

def leadInfo (b0 : Nat) : Option (Nat × List (Nat × Nat)) :=
  if b0 ≤ 0x7F then some (b0, [])
  else if 0xC2 ≤ b0 ∧ b0 ≤ 0xDF then some (b0 - 0xC0, [(0x80, 0xBF)])
  else if b0 = 0xE0 then some (0, [(0xA0, 0xBF), (0x80, 0xBF)])
  else if 0xE1 ≤ b0 ∧ b0 ≤ 0xEC then some (b0 - 0xE0, [(0x80, 0xBF), (0x80, 0xBF)])
  else if b0 = 0xED then some (0xD, [(0x80, 0x9F), (0x80, 0xBF)])
  else if 0xEE ≤ b0 ∧ b0 ≤ 0xEF then some (b0 - 0xE0, [(0x80, 0xBF), (0x80, 0xBF)])
  else if b0 = 0xF0 then some (0, [(0x90, 0xBF), (0x80, 0xBF), (0x80, 0xBF)])
  else if 0xF1 ≤ b0 ∧ b0 ≤ 0xF3 then
    some (b0 - 0xF0, [(0x80, 0xBF), (0x80, 0xBF), (0x80, 0xBF)])
  else if b0 = 0xF4 then some (4, [(0x80, 0x8F), (0x80, 0xBF), (0x80, 0xBF)])
  else none

/-- Consume the continuation bytes of one UTF-8 sequence, folding the
code point; fails when a byte is out of range or the input ends. -/
def utf8StepAux (v : Nat) : List (Nat × Nat) → List Nat → Option (Nat × List Nat)
  | [], rest => some (v, rest)
  | _ :: _, [] => none
  | r :: rs, b :: rest =>
    if r.1 ≤ b ∧ b ≤ r.2 then utf8StepAux (v * 64 + (b - 0x80)) rs rest else none

/-- Decode one code point from the front of a byte list. -/
def utf8Step : List Nat → Option (Nat × List Nat)
  | [] => none
  | b0 :: rest =>
    match leadInfo b0 with
    | none => none
    | some (v, rs) => utf8StepAux v rs rest

/-- Length of the longest prefix of `bs` matching the continuation
ranges `rs` (the maximal-subpart rule of lossy decoding). -/
def contPrefixLen : List (Nat × Nat) → List Nat → Nat
  | r :: rs, b :: rest => if r.1 ≤ b ∧ b ≤ r.2 then 1 + contPrefixLen rs rest else 0
  | _, _ => 0

/-- Fuel-indexed strict UTF-8 decoding; `utf8Step` consumes at least one
byte per call, so fuel equal to the input length suffices. -/
def utf8DecodeAux : Nat → List Nat → Option (List Nat)
  | _, [] => some []
  | 0, _ :: _ => none
  | fuel + 1, l =>
    match utf8Step l with
    | none => none
    | some (c, rest) => (utf8DecodeAux fuel rest).map fun cs => c :: cs

/-- `std::str::from_utf8` seen as decoding to code points: `some`
exactly on valid UTF-8. -/
def utf8Decode (l : List Nat) : Option (List Nat) := utf8DecodeAux l.length l

/-- Fuel-indexed lossy UTF-8 decoding: an invalid sequence is replaced
by U+FFFD, consuming the maximal subpart of a valid sequence. -/
def utf8LossyAux : Nat → List Nat → List Nat
  | 0, _ => []
  | _ + 1, [] => []
  | fuel + 1, b0 :: rest =>
    match utf8Step (b0 :: rest) with
    | some (c, rest2) => c :: utf8LossyAux fuel rest2
    | none =>
      match leadInfo b0 with
      | none => 0xFFFD :: utf8LossyAux fuel rest
      | some (_, rs) => 0xFFFD :: utf8LossyAux fuel (rest.drop (contPrefixLen rs rest))

/-- `String::from_utf8_lossy`, as code points: total on any byte list. -/
def utf8LossyChars (l : List Nat) : List Nat := utf8LossyAux l.length l

/-- UTF-8 encoding of one code point (`str::as_bytes` direction). -/
def utf8EncodeChar (c : Nat) : List Nat :=
  if c < 0x80 then [c]
  else if c < 0x800 then [0xC0 + c / 64, 0x80 + c % 64]
  else if c < 0x10000 then [0xE0 + c / 4096, 0x80 + c / 64 % 64, 0x80 + c % 64]
  else [0xF0 + c / 262144, 0x80 + c / 4096 % 64, 0x80 + c / 64 % 64, 0x80 + c % 64]

/-- UTF-8 encoding of a string given as code points. -/
def utf8Encode (cs : List Nat) : List Nat := (cs.map utf8EncodeChar).flatten

/-- `char::is_whitespace`: the Unicode White_Space property (note that
U+0000 NUL is not part of it). -/
def isWhitespaceChar (c : Nat) : Bool :=
  c == 0x09 || c == 0x0A || c == 0x0B || c == 0x0C || c == 0x0D || c == 0x20 ||
  c == 0x85 || c == 0xA0 || c == 0x1680 ||
  decide (0x2000 ≤ c ∧ c ≤ 0x200A) ||
  c == 0x2028 || c == 0x2029 || c == 0x202F || c == 0x205F || c == 0x3000

/-- `str::trim`: strip leading and trailing whitespace characters. -/
def trimChars (cs : List Nat) : List Nat :=
  ((cs.dropWhile isWhitespaceChar).reverse.dropWhile isWhitespaceChar).reverse

/-- Code points of an ASCII Lean string literal, used to write the wire
names of the message-type enumeration. -/
def asciiBytes (s : String) : List Nat := s.toList.map Char.toNat


/-! ## Message types and payload types
(`src/session_manager/src/message/client_message.rs`) -/

/-- `MessageType` with its strum `snake_case` wire strings. -/
inductive MessageType where
  | interactiveShell
  | agentTaskReply
  | agentTaskComplete
  | agentTaskAcknowledge
  | acknowledge
  | agentSessionState
  | channelClosed
  | outputStreamData
  | inputStreamData
  | pausePublication
  | startPublication
  | agentJob
  | agentJobAck
  | agentJobReplyAck
  | agentJobReply
deriving DecidableEq

/-- The wire string of a `MessageType` (`Display` via strum, `snake_case`). -/
def messageTypeName : MessageType → List Nat
  | .interactiveShell => asciiBytes "interactive_shell"
  | .agentTaskReply => asciiBytes "agent_task_reply"
  | .agentTaskComplete => asciiBytes "agent_task_complete"
  | .agentTaskAcknowledge => asciiBytes "agent_task_acknowledge"
  | .acknowledge => asciiBytes "acknowledge"
  | .agentSessionState => asciiBytes "agent_session_state"
  | .channelClosed => asciiBytes "channel_closed"
  | .outputStreamData => asciiBytes "output_stream_data"
  | .inputStreamData => asciiBytes "input_stream_data"
  | .pausePublication => asciiBytes "pause_publication"
  | .startPublication => asciiBytes "start_publication"
  | .agentJob => asciiBytes "agent_job"
  | .agentJobAck => asciiBytes "agent_job_ack"
  | .agentJobReplyAck => asciiBytes "agent_job_reply_ack"
  | .agentJobReply => asciiBytes "agent_job_reply"

/-- `s.parse::<MessageType>()` (strum `EnumString`): exact match against
each wire string. -/
def parseMessageType (s : List Nat) : Option MessageType :=
  if s = messageTypeName .interactiveShell then some .interactiveShell
  else if s = messageTypeName .agentTaskReply then some .agentTaskReply
  else if s = messageTypeName .agentTaskComplete then some .agentTaskComplete
  else if s = messageTypeName .agentTaskAcknowledge then some .agentTaskAcknowledge
  else if s = messageTypeName .acknowledge then some .acknowledge
  else if s = messageTypeName .agentSessionState then some .agentSessionState
  else if s = messageTypeName .channelClosed then some .channelClosed
  else if s = messageTypeName .outputStreamData then some .outputStreamData
  else if s = messageTypeName .inputStreamData then some .inputStreamData
  else if s = messageTypeName .pausePublication then some .pausePublication
  else if s = messageTypeName .startPublication then some .startPublication
  else if s = messageTypeName .agentJob then some .agentJob
  else if s = messageTypeName .agentJobAck then some .agentJobAck
  else if s = messageTypeName .agentJobReplyAck then some .agentJobReplyAck
  else if s = messageTypeName .agentJobReply then some .agentJobReply
  else none

/-- `PayloadType` (numeric wire codes 0 to 12). -/
inductive PayloadType where
  | null
  | output
  | error
  | size
  | parameter
  | handshakeRequestPayloadType
  | handshakeResponsePayloadType
  | handshakeCompletePayloadType
  | encChallengeRequest
  | encChallengeResponse
  | flag
  | stdErr
  | exitCode
deriving DecidableEq

/-- `impl From<PayloadType> for u32`. -/
def payloadTypeToU32 : PayloadType → Nat
  | .null => 0
  | .output => 1
  | .error => 2
  | .size => 3
  | .parameter => 4
  | .handshakeRequestPayloadType => 5
  | .handshakeResponsePayloadType => 6
  | .handshakeCompletePayloadType => 7
  | .encChallengeRequest => 8
  | .encChallengeResponse => 9
  | .flag => 10
  | .stdErr => 11
  | .exitCode => 12

/-- `impl From<u32> for PayloadType`: the catch-all arm of the Rust
`match` is `panic!`, modelled here as `none` (the caller turns it into
the `panicked` outcome). -/
def payloadTypeFromU32 : Nat → Option PayloadType
  | 0 => some .null
  | 1 => some .output
  | 2 => some .error
  | 3 => some .size
  | 4 => some .parameter
  | 5 => some .handshakeRequestPayloadType
  | 6 => some .handshakeResponsePayloadType
  | 7 => some .handshakeCompletePayloadType
  | 8 => some .encChallengeRequest
  | 9 => some .encChallengeResponse
  | 10 => some .flag
  | 11 => some .stdErr
  | 12 => some .exitCode
  | _ => none

/-! ## The message envelope and its codec
(`src/session_manager/src/message/message_parser.rs`) -/

/-- `ClientMessage`: the wire envelope.  `message_id` is the 16 bytes of
the `Uuid`, `payload` is the Rust `String` as code points, and
`created_date` is the `u64` written to the wire. -/
structure ClientMessage where
  header_length : Nat
  message_type : MessageType
  schema_version : Nat
  created_date : Nat
  sequence_number : Int
  flags : Nat
  message_id : List Nat
  payload_digest : List Nat
  payload_type : PayloadType
  payload_length : Nat
  payload : List Nat
deriving DecidableEq

def HL_OFFSET : Nat := 0
def MESSAGE_TYPE_OFFSET : Nat := 4
def MESSAGE_TYPE_LENGTH : Nat := 32
def SCHEMA_VERSION_OFFSET : Nat := 36
def CREATED_DATE_OFFSET : Nat := 40
def SEQUENCE_NUMBER_OFFSET : Nat := 48
def FLAGS_OFFSET : Nat := 56
def MESSAGE_ID_OFFSET : Nat := 64
def PAYLOAD_DIGEST_OFFSET : Nat := 80
def PAYLOAD_DIGEST_LENGTH : Nat := 32
def PAYLOAD_TYPE_OFFSET : Nat := 112
def PAYLOAD_LENGTH_OFFSET : Nat := 116
def PAYLOAD_LENGTH_LENGTH : Nat := 4

/-- `pad_trim_string`: truncate to `desired` bytes, or right-pad with
zero bytes. -/
def pad_trim_string (bytes : List Nat) (desired : Nat) : List Nat :=
  if bytes.length ≥ desired then bytes.take desired
  else bytes ++ List.replicate (desired - bytes.length) 0

/-- `put_uuid`: swap bytes 0 and 3, 1 and 2, 4 and 5, 6 and 7 of the
16 identifier bytes; the last 8 bytes are copied verbatim. -/
def put_uuid : List Nat → List Nat
  | b0 :: b1 :: b2 :: b3 :: b4 :: b5 :: b6 :: b7 :: rest =>
    b3 :: b2 :: b1 :: b0 :: b5 :: b4 :: b7 :: b6 :: rest
  | l => l

/-- `get_uuid`: after the bounds check, assemble the identifier from the
wire slices `[off+8 .. off+12]`, `[off+12 .. off+14]`, `[off+14 .. off+16]`,
`[off .. off+2]`, `[off+2 .. off+8]` in that order. -/
def get_uuid (b : List Nat) (off : Nat) : Option (List Nat) :=
  if off ≥ b.length ∨ off + 16 > b.length then none
  else some (sliceAt b (off + 8) 4 ++ sliceAt b (off + 12) 2 ++ sliceAt b (off + 14) 2
    ++ sliceAt b off 2 ++ sliceAt b (off + 2) 6)

/-- `get_string`: bounds check, `from_utf8`, then `trim`. -/
def get_string (b : List Nat) (off len : Nat) : Option (List Nat) :=
  if off ≥ b.length ∨ off + len > b.length then none
  else match utf8Decode (sliceAt b off len) with
    | none => none
    | some cs => some (trimChars cs)

/-- `get_bytes`: bounds check, then the raw slice. -/
def get_bytes (b : List Nat) (off len : Nat) : Option (List Nat) :=
  if off ≥ b.length ∨ off + len > b.length then none
  else some (sliceAt b off len)

/-- `get_u32` (via `check_valid::<u32>`). -/
def get_u32 (b : List Nat) (off : Nat) : Option Nat :=
  if off + 4 > b.length then none else some (readBE b off 4)

/-- `get_u64` (via `check_valid::<u64>`). -/
def get_u64 (b : List Nat) (off : Nat) : Option Nat :=
  if off + 8 > b.length then none else some (readBE b off 8)

/-- `get_i64` (via `check_valid::<i64>`). -/
def get_i64 (b : List Nat) (off : Nat) : Option Int :=
  if off + 8 > b.length then none else some (toI64 (readBE b off 8))

/-- `ClientMessage::serialize_client_message`: the eleven fields in wire
order, big-endian. -/
def serialize_client_message (m : ClientMessage) : List Nat :=
  be32 m.header_length
    ++ pad_trim_string (messageTypeName m.message_type) 32
    ++ be32 m.schema_version
    ++ be64 m.created_date
    ++ be64 (intToU64 m.sequence_number)
    ++ be64 m.flags
    ++ put_uuid m.message_id
    ++ m.payload_digest
    ++ be32 (payloadTypeToU32 m.payload_type)
    ++ be32 m.payload_length
    ++ utf8Encode m.payload

/-- Outcome of `deserialize_client_message`: `error` is the
`DeserializationError` return, `panicked` a Rust panic (the unchecked
payload slice, or the `panic!` arm of `From<u32> for PayloadType`). -/
inductive DeserializeResult where
  | ok (m : ClientMessage)
  | error
  | panicked
deriving DecidableEq

/-- `ClientMessage::deserialize_client_message`, field reads in source
order; the payload is taken from `input[header_length + 4 ..]` with
`String::from_utf8_lossy`. -/
def deserialize_client_message (input : List Nat) : DeserializeResult :=
  match get_string input MESSAGE_TYPE_OFFSET MESSAGE_TYPE_LENGTH with
  | none => .error
  | some s =>
  match parseMessageType s with
  | none => .error
  | some message_type =>
  match get_u32 input SCHEMA_VERSION_OFFSET with
  | none => .error
  | some schema_version =>
  match get_u64 input CREATED_DATE_OFFSET with
  | none => .error
  | some created_date =>
  match get_i64 input SEQUENCE_NUMBER_OFFSET with
  | none => .error
  | some sequence_number =>
  match get_u64 input FLAGS_OFFSET with
  | none => .error
  | some flags =>
  match get_uuid input MESSAGE_ID_OFFSET with
  | none => .error
  | some message_id =>
  match get_bytes input PAYLOAD_DIGEST_OFFSET PAYLOAD_DIGEST_LENGTH with
  | none => .error
  | some payload_digest =>
  match get_u32 input PAYLOAD_TYPE_OFFSET with
  | none => .error
  | some payloadTypeValue =>
  match payloadTypeFromU32 payloadTypeValue with
  | none => .panicked
  | some payload_type =>
  match get_u32 input PAYLOAD_LENGTH_OFFSET with
  | none => .error
  | some payload_length =>
  match get_u32 input HL_OFFSET with
  | none => .error
  | some header_length =>
  if header_length + PAYLOAD_LENGTH_LENGTH > input.length then .panicked
  else .ok { header_length, message_type, schema_version, created_date, sequence_number,
             flags, message_id, payload_digest, payload_type, payload_length,
             payload := utf8LossyChars (input.drop (header_length + PAYLOAD_LENGTH_LENGTH)) }

/-! ## Message builders and the acknowledgment path
(`src/client/src/ssm.rs`, `src/client/src/main.rs`, `src/src/ssm.rs`,
`src/src/main.rs`) -/

/-- `AcknowledgeContent` (session_manager): the JSON payload of an
acknowledge message; field names on the wire are
`AcknowledgedMessageType`, `AcknowledgedMessageId`,
`AcknowledgedMessageSequenceNumber`, `IsSequentialMessage`. -/
structure AcknowledgeContent where
  message_type : MessageType
  message_id : List Nat
  sequence_number : Int
  is_sequential_message : Bool
deriving DecidableEq

/-- The `AcknowledgeContent` value constructed inside
`build_acknowledge` in `src/client/src/ssm.rs`: message type
`OutputStreamData`, the given identifier, the given sequence number,
`is_sequential_message = true`. -/
def build_acknowledge_content (sequence_number : Int) (message_id : List Nat) :
    AcknowledgeContent :=
  { message_type := .outputStreamData, message_id := message_id,
    sequence_number := sequence_number, is_sequential_message := true }

/-- `send_ack` in `src/client/src/main.rs` line 191: the acknowledgment
content is built from the local outgoing `sequence_number` counter and
the received message's `message_id`. -/
def send_ack_content (sequence_number : Int) (message : ClientMessage) :
    AcknowledgeContent :=
  build_acknowledge_content sequence_number message.message_id

/-- `build_agent_message` (`src/client/src/ssm.rs`).  The SHA-256 hash
of the external `sha2` crate and the ambient values drawn inside the
function (`SystemTime::now`, `Uuid::new_v4`) are passed in explicitly. -/
def build_agent_message (sha256 : List Nat → List Nat) (created_date : Nat)
    (message_id : List Nat) (payload : List Nat) (message_type : MessageType)
    (sequence_number : Int) (payload_type : PayloadType) (flags : Nat) : ClientMessage :=
  { header_length := 116, message_type, schema_version := 1, created_date,
    sequence_number, flags, message_id,
    payload_digest := sha256 (utf8Encode payload), payload_type,
    payload_length := (utf8Encode payload).length, payload }

/-- The envelope constructed by `build_input_message`
(`src/client/src/ssm.rs` lines 43-53, identically `src/src/ssm.rs`
lines 42-52) before serialization: message type `InputStreamData`,
payload type `Output`, and flags `0` when the sequence number is `1`,
`1` otherwise. -/
def build_input_envelope (sha256 : List Nat → List Nat) (created_date : Nat)
    (message_id : List Nat) (input : List Nat) (sequence_number : Int) : ClientMessage :=
  build_agent_message sha256 created_date message_id input .inputStreamData
    sequence_number .output (if sequence_number = 1 then 0 else 1)

/-- `build_input_message`: the serialized bytes of that envelope. -/
def build_input_message (sha256 : List Nat → List Nat) (created_date : Nat)
    (message_id : List Nat) (input : List Nat) (sequence_number : Int) : List Nat :=
  serialize_client_message
    (build_input_envelope sha256 created_date message_id input sequence_number)

/-- `EMessageType` (`src/client/src/enums.rs`; the root crate's `enums`
module declares the same enumeration). -/
inductive EMessageType where
  | interactiveShell
  | taskReply
  | taskComplete
  | taskAcknowledge
  | acknowledge
  | agentSession
  | channelClosed
  | outputStreamData
  | inputStreamData
  | pausePublication
  | startPublication
  | agentJob
  | agentJobAcknowledge
  | agentJobReplyAck
  | agentJobReply
deriving DecidableEq

/-- The root crate's `AcknowledgeContent` (`src/src/structs.rs`):
message type as a wire string and the identifier rendered as text. -/
structure RootAcknowledgeContent where
  message_type : List Nat
  message_id : List Nat
  sequence_number : Int
  is_sequential_message : Bool
deriving DecidableEq

/-- `build_acknowledge` in `src/src/ssm.rs` lines 21-27: the content
carries `output_stream_data`, the given identifier and the given
sequence number, `is_sequential_message = true`. -/
def root_build_acknowledge_content (sequence_number : Int) (message_id : List Nat) :
    RootAcknowledgeContent :=
  { message_type := asciiBytes "output_stream_data", message_id := message_id,
    sequence_number := sequence_number, is_sequential_message := true }

/-- The receive branch of the root crate's main loop
(`src/src/main.rs` lines 152-159): for a received message that is not
an acknowledge, build an ack from the local counter and the message's
identifier, send it, then increment the local counter (`sequence_number
+= 1`); acknowledge messages produce nothing.  Returns the new counter
and the acknowledgment sent, if any. -/
def root_receive_step (sequence_number : Int) (message_type : EMessageType)
    (message_id : List Nat) : Int × Option RootAcknowledgeContent :=
  if message_type ≠ EMessageType.acknowledge then
    (sequence_number + 1, some (root_build_acknowledge_content sequence_number message_id))
  else (sequence_number, none)

/-- The key-input branch of the root crate's main loop
(`src/src/main.rs` lines 126-130): build an input message at the
current counter, send it, then increment the counter. -/
def root_input_send_step (sha256 : List Nat → List Nat) (created_date : Nat)
    (message_id : List Nat) (input : List Nat) (sequence_number : Int) :
    Int × List Nat :=
  (sequence_number + 1,
   build_input_message sha256 created_date message_id input sequence_number)

/-! ## The encryption layer
(`src/session_manager/src/encryption/encrypter.rs`) -/

def NONCE_SIZE : Nat := 12

/-- The `Keys` container returned by `Encrypter::generate_encryption_key`. -/
structure Keys where
  encryption_key : List Nat
  decryption_key : List Nat
  cypher_text_key : List Nat
deriving DecidableEq

/-- `Encrypter::generate_encryption_key`: split the KMS plaintext key
material at the midpoint; the first half is the encryption key, the
second half the decryption key. -/
def generate_encryption_key (plain_text cipher_text : List Nat) : Keys :=
  let key_size := plain_text.length / 2
  { encryption_key := plain_text.take key_size,
    decryption_key := plain_text.drop key_size,
    cypher_text_key := cipher_text }

/-- The `Encrypter` state (the KMS client and key id play no role in
`encrypt`/`decrypt` and are omitted). -/
structure Encrypter where
  cipher_text_key : List Nat
  encryption_key : List Nat
  decryption_key : List Nat
deriving DecidableEq

/-- `Encrypter::new`: adopt the generated keys. -/
def Encrypter.ofKeys (k : Keys) : Encrypter :=
  { cipher_text_key := k.cypher_text_key, encryption_key := k.encryption_key,
    decryption_key := k.decryption_key }

/-- An AEAD encryption function: key, nonce, plaintext to ciphertext. -/
abbrev AeadEncrypt := List Nat → List Nat → List Nat → List Nat

/-- An AEAD decryption function: key, nonce, ciphertext to plaintext,
`none` on authentication failure. -/
abbrev AeadDecrypt := List Nat → List Nat → List Nat → Option (List Nat)

/-- Outcome of `Encrypter::decrypt`: `error` is the `bail!` return,
`panicked` the out-of-bounds slice `&cipher_text[..NONCE_SIZE]`. -/
inductive DecryptResult where
  | ok (plain : List Nat)
  | error
  | panicked
deriving DecidableEq

/-- `Encrypter::encrypt`: AEAD-encrypt with the local encryption key
and a fresh nonce (drawn from `OsRng` in the source, passed explicitly
here), returning the nonce prepended to the ciphertext. -/
def Encrypter.encrypt (aead : AeadEncrypt) (e : Encrypter) (nonce plain_text : List Nat) :
    List Nat :=
  nonce ++ aead e.encryption_key nonce plain_text

/-- `Encrypter::decrypt`: slice the first `NONCE_SIZE` bytes off as the
nonce (a Rust panic when the input is shorter) and AEAD-decrypt the
remainder with the local decryption key. -/
def Encrypter.decrypt (aead : AeadDecrypt) (e : Encrypter) (cipher_text : List Nat) :
    DecryptResult :=
  if cipher_text.length < NONCE_SIZE then .panicked
  else
    match aead e.decryption_key (cipher_text.take NONCE_SIZE)
        (cipher_text.drop NONCE_SIZE) with
    | some decrypted_data => .ok decrypted_data
    | none => .error

/-- Modelled from the spec: the AES-256-GCM cipher itself lives in the
external `aes_gcm` crate, not in this repository; the spec describes it
as an AEAD providing "confidentiality plus tamper detection" whose
decryption "fails with an authentication error if the tag does not
verify".  This model ciphertext carries the plaintext followed by a tag
binding the key and nonce; decryption checks the tag and recovers the
plaintext exactly when key and nonce match. -/
def aes256GcmEncrypt (key nonce plain_text : List Nat) : List Nat :=
  plain_text ++ key ++ nonce

/-- Modelled from the spec: decryption side of the model AEAD cipher
(see `aes256GcmEncrypt`). -/
def aes256GcmDecrypt (key nonce cipher_text : List Nat) : Option (List Nat) :=
  if key.length + nonce.length ≤ cipher_text.length ∧
      cipher_text.drop (cipher_text.length - (key.length + nonce.length)) = key ++ nonce
  then some (cipher_text.take (cipher_text.length - (key.length + nonce.length)))
  else none

/-! ## The WebSocket receive loop
(`src/session_manager/src/communicator/web_sockets_channel.rs`) -/

/-- A `tokio_websockets::Message` by frame kind. -/
inductive WsMessage where
  | binary (payload : List Nat)
  | text (payload : List Nat)
  | ping (payload : List Nat)
  | pong (payload : List Nat)
  | close
deriving DecidableEq

def WsMessage.is_binary : WsMessage → Bool
  | .binary _ => true
  | _ => false

def WsMessage.is_text : WsMessage → Bool
  | .text _ => true
  | _ => false

def WsMessage.as_payload : WsMessage → List Nat
  | .binary p => p
  | .text p => p
  | .ping p => p
  | .pong p => p
  | .close => []

/-- What the receive loop does with one intact frame. -/
inductive ReceiveAction where
  | delivered (payload : List Nat)
  | skipped
deriving DecidableEq

/-- The `Some(Ok(message))` arm of the receive loop in
`WebSocketChannel::open` (lines 87-99): a frame failing the
`!message.is_binary() || !message.is_text()` test is skipped with an
error log; otherwise the registered handler receives the payload
bytes. -/
def receive_loop_body (message : WsMessage) : ReceiveAction :=
  if !message.is_binary || !message.is_text then .skipped
  else .delivered message.as_payload

/-! ## Concrete inputs used by the claim theorems -/

/-- The identifier bytes `00 01 02 .. 0f`. -/
def c1_identifier : List Nat := List.range 16

/-- A valid envelope as in the spec's example scenario: header length
116, message type `input_stream_data`, schema version 1, payload length
equal to the payload's byte length. -/
def c2_envelope : ClientMessage :=
  { header_length := 116, message_type := .inputStreamData, schema_version := 1,
    created_date := 1700000000000, sequence_number := 0, flags := 1,
    message_id := List.range 16, payload_digest := List.replicate 32 0,
    payload_type := .size, payload_length := 3, payload := asciiBytes "abc" }

/-- A 122-byte frame whose fixed fields all parse (the message-type
field is space-padded, which `trim` does strip) and whose two payload
bytes `ff fe` are not valid UTF-8. -/
def c3_input : List Nat :=
  be32 116 ++ (asciiBytes "output_stream_data" ++ List.replicate 14 32) ++ be32 1
    ++ be64 0 ++ be64 0 ++ be64 0 ++ List.replicate 16 0 ++ List.replicate 32 0
    ++ be32 1 ++ be32 2 ++ [255, 254]

/-- A 120-byte frame whose fixed fields all parse but whose
header-length field holds 200, so the payload slice
`input[204 ..]` is out of bounds. -/
def c4_input : List Nat :=
  be32 200 ++ (asciiBytes "acknowledge" ++ List.replicate 21 32) ++ be32 1
    ++ be64 0 ++ be64 0 ++ be64 0 ++ List.replicate 16 0 ++ List.replicate 32 0
    ++ be32 3 ++ be32 0

/-- A received data message with sequence number 5. -/
def c5_received_message : ClientMessage :=
  { header_length := 116, message_type := .outputStreamData, schema_version := 1,
    created_date := 0, sequence_number := 5, flags := 0, message_id := List.range 16,
    payload_digest := List.replicate 32 0, payload_type := .output, payload_length := 2,
    payload := asciiBytes "hi" }

/-- An `Encrypter` over two-byte key material `[1, 2]`: the halves, and
so the encryption and decryption keys, differ. -/
def c7_encrypter : Encrypter := Encrypter.ofKeys (generate_encryption_key [1, 2] [])

/-- An `Encrypter` over key material `[5, 5]`: both halves coincide, so
the encryption and decryption keys are equal. -/
def c7_matched_encrypter : Encrypter := Encrypter.ofKeys (generate_encryption_key [5, 5] [])

/-- An `Encrypter` over 64 bytes of key material (32-byte halves, as a
KMS data key would give). -/
def c8_encrypter : Encrypter :=
  Encrypter.ofKeys (generate_encryption_key (List.replicate 64 7) [])

/-! ## Helper lemmas -/

/-- The model AEAD cipher decrypts its own output: with matching key
and nonce, `aes256GcmDecrypt` recovers the plaintext. -/
theorem aes256Gcm_roundtrip (key nonce plain_text : List Nat) :
    aes256GcmDecrypt key nonce (aes256GcmEncrypt key nonce plain_text) = some plain_text := by
  have hassoc : plain_text ++ key ++ nonce = plain_text ++ (key ++ nonce) :=
    List.append_assoc plain_text key nonce
  have hlen : (plain_text ++ key ++ nonce).length - (key.length + nonce.length) =
      plain_text.length := by
    simp only [List.length_append]
    omega
  have hcond : key.length + nonce.length ≤ (plain_text ++ key ++ nonce).length := by
    simp only [List.length_append]
    omega
  have hdrop : (plain_text ++ key ++ nonce).drop
      ((plain_text ++ key ++ nonce).length - (key.length + nonce.length)) = key ++ nonce := by
    rw [hlen, hassoc]
    exact List.drop_left plain_text (key ++ nonce)
  unfold aes256GcmEncrypt aes256GcmDecrypt
  rw [if_pos ⟨hcond, hdrop⟩, hlen, hassoc, List.take_left]

/-! ## The claims -/

/-- C1: the 16-byte identifier wire conversion is claimed to be an
exact inverse pair; on the code, decoding the bytes produced by
`put_uuid` with `get_uuid` at the same offset yields a non-trivial
permutation of the identifier, not the identifier itself.  The theorem
evaluates the composition at the identifier `00 01 .. 0f`. -/
theorem c1_uuid_roundtrip_not_identity :
    get_uuid (put_uuid c1_identifier) 0 =
      some [8, 9, 10, 11, 12, 13, 14, 15, 3, 2, 1, 0, 5, 4, 7, 6] ∧
    get_uuid (put_uuid c1_identifier) 0 ≠ some c1_identifier := by decide

/-- C2: `deserialize_client_message (serialize_client_message E)` is
claimed to reproduce every valid envelope `E`; on the code it fails for
the spec's own example envelope, because the serializer pads the
message-type field with zero bytes while the deserializer's `trim`
strips only whitespace, so the padded string matches no message type. -/
theorem c2_roundtrip_fails_on_valid_envelope :
    deserialize_client_message (serialize_client_message c2_envelope) = .error ∧
    get_string (serialize_client_message c2_envelope) MESSAGE_TYPE_OFFSET MESSAGE_TYPE_LENGTH =
      some (asciiBytes "input_stream_data" ++ List.replicate 15 0) ∧
    parseMessageType (asciiBytes "input_stream_data" ++ List.replicate 15 0) = none := by decide

/-- C3 (counterexample): the claim says deserialization fails whenever
the payload bytes are not valid UTF-8; on the code, a frame whose
payload is the invalid byte pair `ff fe` deserializes successfully,
with the payload decoded lossily to two U+FFFD replacement
characters. -/
theorem c3_invalid_utf8_payload_accepted :
    utf8Decode (c3_input.drop 120) = none ∧
    deserialize_client_message c3_input =
      .ok { header_length := 116, message_type := .outputStreamData, schema_version := 1,
            created_date := 0, sequence_number := 0, flags := 0,
            message_id := List.replicate 16 0, payload_digest := List.replicate 32 0,
            payload_type := .output, payload_length := 2,
            payload := [0xFFFD, 0xFFFD] } := by decide

/-- C3 (amended): the payload bytes never cause a deserialization
error.  Whenever the fixed fields parse — the message-type field parses,
the buffer holds the 120 fixed bytes, the payload-type code is known and
the header-length field stays in bounds — deserialization returns a
message whose payload is the lossy UTF-8 decoding of the payload slice,
regardless of that slice's UTF-8 validity. -/
theorem c3_payload_utf8_never_errors (input : List Nat)
    (hmt : ((get_string input MESSAGE_TYPE_OFFSET MESSAGE_TYPE_LENGTH).bind
      parseMessageType).isSome)
    (hlen : 120 ≤ input.length)
    (hpt : (payloadTypeFromU32 (readBE input PAYLOAD_TYPE_OFFSET 4)).isSome)
    (hhl : readBE input HL_OFFSET 4 + PAYLOAD_LENGTH_LENGTH ≤ input.length) :
    ∃ m, deserialize_client_message input = .ok m ∧
      m.payload = utf8LossyChars (input.drop (readBE input HL_OFFSET 4 + PAYLOAD_LENGTH_LENGTH)) := by
  rcases hs : get_string input MESSAGE_TYPE_OFFSET MESSAGE_TYPE_LENGTH with _ | s
  · rw [hs] at hmt
    simp at hmt
  rw [hs] at hmt
  rcases hm : parseMessageType s with _ | mt
  · simp [hm] at hmt
  rcases hp : payloadTypeFromU32 (readBE input PAYLOAD_TYPE_OFFSET 4) with _ | pt
  · rw [hp] at hpt
    simp at hpt
  have h36 : get_u32 input SCHEMA_VERSION_OFFSET = some (readBE input SCHEMA_VERSION_OFFSET 4) := by
    simp only [get_u32, SCHEMA_VERSION_OFFSET]
    rw [if_neg (by omega)]
  have h40 : get_u64 input CREATED_DATE_OFFSET = some (readBE input CREATED_DATE_OFFSET 8) := by
    simp only [get_u64, CREATED_DATE_OFFSET]
    rw [if_neg (by omega)]
  have h48 : get_i64 input SEQUENCE_NUMBER_OFFSET =
      some (toI64 (readBE input SEQUENCE_NUMBER_OFFSET 8)) := by
    simp only [get_i64, SEQUENCE_NUMBER_OFFSET]
    rw [if_neg (by omega)]
  have h56 : get_u64 input FLAGS_OFFSET = some (readBE input FLAGS_OFFSET 8) := by
    simp only [get_u64, FLAGS_OFFSET]
    rw [if_neg (by omega)]
  have h64 : get_uuid input MESSAGE_ID_OFFSET =
      some (sliceAt input (MESSAGE_ID_OFFSET + 8) 4 ++ sliceAt input (MESSAGE_ID_OFFSET + 12) 2
        ++ sliceAt input (MESSAGE_ID_OFFSET + 14) 2 ++ sliceAt input MESSAGE_ID_OFFSET 2
        ++ sliceAt input (MESSAGE_ID_OFFSET + 2) 6) := by
    simp only [get_uuid, MESSAGE_ID_OFFSET]
    rw [if_neg (by omega)]
  have h80 : get_bytes input PAYLOAD_DIGEST_OFFSET PAYLOAD_DIGEST_LENGTH =
      some (sliceAt input PAYLOAD_DIGEST_OFFSET PAYLOAD_DIGEST_LENGTH) := by
    simp only [get_bytes, PAYLOAD_DIGEST_OFFSET, PAYLOAD_DIGEST_LENGTH]
    rw [if_neg (by omega)]
  have h112 : get_u32 input PAYLOAD_TYPE_OFFSET = some (readBE input PAYLOAD_TYPE_OFFSET 4) := by
    simp only [get_u32, PAYLOAD_TYPE_OFFSET]
    rw [if_neg (by omega)]
  have h116 : get_u32 input PAYLOAD_LENGTH_OFFSET =
      some (readBE input PAYLOAD_LENGTH_OFFSET 4) := by
    simp only [get_u32, PAYLOAD_LENGTH_OFFSET]
    rw [if_neg (by omega)]
  have h0 : get_u32 input HL_OFFSET = some (readBE input HL_OFFSET 4) := by
    simp only [get_u32, HL_OFFSET]
    rw [if_neg (by omega)]
  unfold deserialize_client_message
  simp only [hs, hm, h36, h40, h48, h56, h64, h80, h112, hp, h116, h0]
  rw [if_neg (by omega)]
  exact ⟨_, rfl, rfl⟩

/-- C3 (witness): the amended statement applied to the concrete frame
with the invalid UTF-8 payload. -/
theorem c3_payload_utf8_never_errors_witness :
    ∃ m, deserialize_client_message c3_input = .ok m ∧
      m.payload = utf8LossyChars (c3_input.drop (readBE c3_input HL_OFFSET 4 + PAYLOAD_LENGTH_LENGTH)) :=
  c3_payload_utf8_never_errors c3_input (by decide) (by decide) (by decide) (by decide)

/-- C4: deserialization is claimed total (never panicking); on the
code, a 120-byte frame whose fixed fields all parse but whose
header-length field holds 200 drives the payload slice
`input[header_length + 4 ..]` out of bounds, a Rust panic. -/
theorem c4_deserialize_panics_on_bad_header_length :
    c4_input.length = 120 ∧ deserialize_client_message c4_input = .panicked := by decide

/-- C5: the acknowledgment is claimed to carry the received message's
sequence number; on the code, `send_ack` passes the receiver's own
outgoing counter (here 0), so the acknowledgment of a message with
sequence number 5 carries sequence number 0.  The identifier is taken
from the message, as claimed. -/
theorem c5_ack_uses_local_counter :
    (send_ack_content 0 c5_received_message).message_id = c5_received_message.message_id ∧
    (send_ack_content 0 c5_received_message).sequence_number = 0 ∧
    c5_received_message.sequence_number = 5 := by decide

/-- C6: sending an acknowledgment is claimed to leave the outgoing
sequence counter unchanged; on the code, the root crate's receive
branch increments the counter from 0 to 1 after sending the
acknowledgment for a received stream-data message. -/
theorem c6_ack_send_advances_counter :
    (root_receive_step 0 EMessageType.outputStreamData (List.range 16)).1 = 1 ∧
    (root_receive_step 0 EMessageType.outputStreamData (List.range 16)).2 =
      some (root_build_acknowledge_content 0 (List.range 16)) := by decide

/-- C7 (counterexample): `decrypt (encrypt P)` on one and the same
`Encrypter` is claimed to return `P`; on the code, encryption uses the
first half of the key material and decryption the second half, so for
an `Encrypter` whose halves differ the AEAD tag check fails and
decryption errors instead of returning the plaintext. -/
theorem c7_self_roundtrip_fails :
    c7_encrypter.encryption_key ≠ c7_encrypter.decryption_key ∧
    Encrypter.decrypt aes256GcmDecrypt c7_encrypter
      (Encrypter.encrypt aes256GcmEncrypt c7_encrypter (List.replicate 12 0) [7]) = .error := by
  decide

/-- C7 (amended): `decrypt (encrypt P) = P` holds exactly in the
cross-peer key configuration: for any AEAD cipher that decrypts its own
output, any `Encrypter` whose decryption key equals the encryption key
in use, and any 12-byte nonce, the round trip returns the plaintext. -/
theorem c7_roundtrip_with_matching_keys (enc : AeadEncrypt) (dec : AeadDecrypt)
    (e : Encrypter) (nonce plain_text : List Nat)
    (haead : ∀ key n p, dec key n (enc key n p) = some p)
    (hkeys : e.decryption_key = e.encryption_key)
    (hnonce : nonce.length = NONCE_SIZE) :
    Encrypter.decrypt dec e (Encrypter.encrypt enc e nonce plain_text) = .ok plain_text := by
  unfold Encrypter.encrypt Encrypter.decrypt
  rw [if_neg (by rw [List.length_append, hnonce]; omega)]
  rw [← hnonce, List.take_left, List.drop_left, hkeys, haead]

/-- C7 (witness): the amended statement applied to the model cipher and
an `Encrypter` whose key halves coincide. -/
theorem c7_roundtrip_with_matching_keys_witness :
    Encrypter.decrypt aes256GcmDecrypt c7_matched_encrypter
      (Encrypter.encrypt aes256GcmEncrypt c7_matched_encrypter (List.replicate 12 0) [9]) =
      .ok [9] :=
  c7_roundtrip_with_matching_keys aes256GcmEncrypt aes256GcmDecrypt c7_matched_encrypter
    (List.replicate 12 0) [9] aes256Gcm_roundtrip (by decide) (by decide)

/-- C8: decryption is claimed to fail with an error, not a panic, on
inputs shorter than the 12-byte nonce; on the code, the slice
`&cipher_text[..NONCE_SIZE]` panics for the empty input and for an
11-byte input. -/
theorem c8_decrypt_panics_on_short_input :
    Encrypter.decrypt aes256GcmDecrypt c8_encrypter [] = .panicked ∧
    Encrypter.decrypt aes256GcmDecrypt c8_encrypter (List.replicate 11 0) = .panicked := by
  decide

/-- C9: the receive loop is claimed to deliver every intact binary or
text frame to the registered handler; on the code, the filter
`!is_binary() || !is_text()` holds for every frame (no frame is both),
so every frame — binary and text frames included — is skipped and the
handler is never invoked. -/
theorem c9_receive_loop_skips_every_frame (message : WsMessage) :
    receive_loop_body message = ReceiveAction.skipped := by
  cases message <;> rfl

/-- C10: `build_input_message` sets the envelope flags field to 0
exactly when the sequence number is 1 and to 1 (SYN) for every other
sequence number. -/
theorem c10_input_message_syn_flag (sha256 : List Nat → List Nat) (created_date : Nat)
    (message_id input : List Nat) (sequence_number : Int) :
    (build_input_envelope sha256 created_date message_id input sequence_number).flags =
      if sequence_number = 1 then 0 else 1 := rfl
